import Mathlib

/-!
Shallow embedding of the Powerball lottery simulator (src/simulator.py,
class Lotto) together with proofs about its behaviour.

The random draws of the Python code (random.sample) are modelled by
passing the sampled outcomes explicitly: a run consumes a list of pairs
of drawings, one pair (ticket drawing, official drawing) per play, and
the pool a multiplier is sampled from is modelled by the function
drawPowerplayPool together with list membership.
-/

namespace Lotto

/-- Main-ball pool, simulator.py line 32: integers 1 through 69. -/
def ballPool : List Nat := List.range' 1 69

/-- Power-ball pool, simulator.py line 33: integers 1 through 26. -/
def powerballPool : List Nat := List.range' 1 26

/-- Full multiplier pool, simulator.py line 34: self._powerplays = (2, 3, 4, 5, 10). -/
def powerplays : List Int := [2, 3, 4, 5, 10]

/-- Payout specification of one prize-table entry: a fixed amount, or the
sentinel meaning pay the current jackpot (the string value in the Python dict,
simulator.py line 45). -/
inductive Prize where
  | fixed (amount : Int)
  | jackpotPrize
deriving DecidableEq, Repr

/-- Prize table, simulator.py lines 36-46, keyed by
(number of matched balls, power ball matched). -/
def prizes : List ((Nat × Bool) × Prize) :=
  [ ((0, true), .fixed 4)
  , ((1, true), .fixed 4)
  , ((2, true), .fixed 7)
  , ((3, false), .fixed 7)
  , ((3, true), .fixed 100)
  , ((4, false), .fixed 100)
  , ((4, true), .fixed 50000)
  , ((5, false), .fixed 1000000)
  , ((5, true), .jackpotPrize) ]

/-- Lotto._multiply_powerplay, simulator.py lines 118-136. -/
def multiply_powerplay (winnings powerplay : Int) : Int :=
  if powerplay > 0 then
    if winnings < 1000000 then winnings * powerplay
    else 2000000
  else winnings

/-- Multiplier pool selected by Lotto._draw, simulator.py lines 183-188:
the full pool when the jackpot is at least 150,000,000, (2, 3, 4, 5) otherwise. -/
def drawPowerplayPool (jackpot : Int) : List Int :=
  if jackpot ≥ 150000000 then powerplays else [2, 3, 4, 5]

/-- One sampled drawing as returned by Lotto._draw, simulator.py line 190:
a list of 5 main balls, a 1-element power-ball list and a 1-element
multiplier list. -/
structure Drawing where
  balls : List Nat
  powerball : List Nat
  powerplay : List Int
deriving DecidableEq, Repr

/-- Well-formedness of a drawing for a given jackpot: exactly what
random.sample guarantees in Lotto._draw (lines 181-188): 5 distinct main
balls from the pool, one power ball from its pool, one multiplier from the
jackpot-dependent pool. -/
def Drawing.Valid (d : Drawing) (jackpot : Int) : Prop :=
  d.balls.Nodup ∧ d.balls.length = 5 ∧ (∀ b ∈ d.balls, b ∈ ballPool) ∧
  d.powerball.length = 1 ∧ (∀ b ∈ d.powerball, b ∈ powerballPool) ∧
  d.powerplay.length = 1 ∧ (∀ p ∈ d.powerplay, p ∈ drawPowerplayPool jackpot)

/-- Accumulated state of a Lotto instance, simulator.py lines 47-58. -/
structure LottoState where
  plays : Nat
  spent : List Int
  winnings : List Int
  net_profit : Int
  chosen_ball1 : List Nat
  chosen_ball2 : List Nat
  chosen_ball3 : List Nat
  chosen_ball4 : List Nat
  chosen_ball5 : List Nat
  chosen_powerball : List Nat
  chosen_powerplay : List Int
deriving DecidableEq, Repr

/-- State of a freshly constructed Lotto instance (Lotto.__init__). -/
def initState : LottoState :=
  { plays := 0, spent := [], winnings := [], net_profit := 0
    chosen_ball1 := [], chosen_ball2 := [], chosen_ball3 := []
    chosen_ball4 := [], chosen_ball5 := []
    chosen_powerball := [], chosen_powerplay := [] }

/-- Matched-balls count of Lotto.run line 259:
len([i for i in ticket_balls if i in chosen_balls]). -/
def matchedBalls (ticket chosen : List Nat) : Nat :=
  (ticket.filter (fun i => decide (i ∈ chosen))).length

/-- Power-ball comparison of Lotto.run line 260: the two 1-element lists are
compared for equality. -/
def matchedPowerball (ticket chosen : List Nat) : Bool :=
  ticket == chosen

/-- Prize lookup of Lotto.run lines 263-266: a missing key yields a payout
of 0 (the KeyError branch). -/
def lookupPrize (m : Nat) (pb : Bool) : Prize :=
  match prizes.lookup (m, pb) with
  | some p => p
  | none => .fixed 0

/-- Winnings resolution of Lotto.run lines 263-271: the jackpot sentinel pays
the jackpot verbatim; otherwise the multiplier is applied when the powerplay
option is enabled. -/
def resolveWinnings (jackpot : Int) (add_powerplay : Bool)
    (m : Nat) (pb : Bool) (powerplay : Int) : Int :=
  match lookupPrize m pb with
  | .jackpotPrize => jackpot
  | .fixed w => if add_powerplay then multiply_powerplay w powerplay else w

/-- Per-play ticket price, Lotto.run line 244: 2 if not add_powerplay else 3. -/
def playCost (add_powerplay : Bool) : Int :=
  if add_powerplay then 3 else 2

/-- Winnings of one play given the ticket drawing and the official drawing
(Lotto.run lines 258-271); only the official drawing's multiplier is used. -/
def playWinnings (jackpot : Int) (add_powerplay : Bool) (t o : Drawing) : Int :=
  resolveWinnings jackpot add_powerplay
    (matchedBalls t.balls o.balls)
    (matchedPowerball t.powerball o.powerball)
    (o.powerplay.getD 0 0)

/-- One iteration of the loop in Lotto.run, lines 241-272: the ticket drawing
and the official drawing for this play are given explicitly. -/
def step (jackpot : Int) (add_powerplay : Bool) (s : LottoState)
    (ticket official : Drawing) : LottoState :=
  { plays := s.plays + 1
    spent := s.spent ++ [playCost add_powerplay]
    winnings := s.winnings ++ [playWinnings jackpot add_powerplay ticket official]
    net_profit := s.net_profit
    chosen_ball1 := s.chosen_ball1 ++ [ticket.balls.getD 0 0]
    chosen_ball2 := s.chosen_ball2 ++ [ticket.balls.getD 1 0]
    chosen_ball3 := s.chosen_ball3 ++ [ticket.balls.getD 2 0]
    chosen_ball4 := s.chosen_ball4 ++ [ticket.balls.getD 3 0]
    chosen_ball5 := s.chosen_ball5 ++ [ticket.balls.getD 4 0]
    chosen_powerball := s.chosen_powerball ++ [ticket.powerball.getD 0 0]
    chosen_powerplay := s.chosen_powerplay ++ [official.powerplay.getD 0 0] }

/-- Lotto._calc_profit, simulator.py lines 161-170: elementwise
np.negative(spent) + winnings. -/
def calc_profit (s : LottoState) : List Int :=
  List.zipWith (fun sp won => -sp + won) s.spent s.winnings

/-- Loop of Lotto.run, lines 241-272: one step per element of draws, each
element holding the two drawings sampled in that iteration. -/
def runLoop (jackpot : Int) (add_powerplay : Bool) (s : LottoState) :
    List (Drawing × Drawing) → LottoState
  | [] => s
  | d :: ds => runLoop jackpot add_powerplay (step jackpot add_powerplay s d.1 d.2) ds

/-- Lotto.run, simulator.py lines 224-273: the loop followed by
net_profit = np.sum(self._calc_profit()). The number of plays is the length
of the draws list. -/
def run (jackpot : Int) (add_powerplay : Bool)
    (draws : List (Drawing × Drawing)) (s : LottoState) : LottoState :=
  let s1 := runLoop jackpot add_powerplay s draws
  { s1 with net_profit := (calc_profit s1).sum }

/-- Ticket-number column of Lotto._get_df, simulator.py line 210:
range(1, plays + 1). -/
def ticketNumbers (s : LottoState) : List Nat :=
  List.range' 1 s.plays

/-- State whose recorded series all have one entry per recorded play, as is
the case for every state actually produced by the Python class. -/
def WellFormed (s : LottoState) : Prop :=
  s.spent.length = s.plays ∧ s.winnings.length = s.plays ∧
  s.chosen_ball1.length = s.plays ∧ s.chosen_ball2.length = s.plays ∧
  s.chosen_ball3.length = s.plays ∧ s.chosen_ball4.length = s.plays ∧
  s.chosen_ball5.length = s.plays ∧ s.chosen_powerball.length = s.plays ∧
  s.chosen_powerplay.length = s.plays

instance (s : LottoState) : Decidable (WellFormed s) := by
  unfold WellFormed; infer_instance

/-! Helper lemmas describing how the run loop extends each recorded series. -/

lemma runLoop_plays (j : Int) (ap : Bool) (ds : List (Drawing × Drawing)) :
    ∀ s : LottoState, (runLoop j ap s ds).plays = s.plays + ds.length := by
  induction ds with
  | nil => intro s; simp [runLoop]
  | cons d ds ih =>
      intro s
      rw [runLoop, ih]
      simp [step]
      omega

lemma runLoop_spent (j : Int) (ap : Bool) (ds : List (Drawing × Drawing)) :
    ∀ s : LottoState,
      (runLoop j ap s ds).spent = s.spent ++ List.replicate ds.length (playCost ap) := by
  induction ds with
  | nil => intro s; simp [runLoop]
  | cons d ds ih =>
      intro s
      rw [runLoop, ih]
      simp [step, List.replicate_succ]

lemma runLoop_winnings (j : Int) (ap : Bool) (ds : List (Drawing × Drawing)) :
    ∀ s : LottoState,
      (runLoop j ap s ds).winnings
        = s.winnings ++ ds.map (fun d => playWinnings j ap d.1 d.2) := by
  induction ds with
  | nil => intro s; simp [runLoop]
  | cons d ds ih =>
      intro s
      rw [runLoop, ih]
      simp [step]

lemma runLoop_ball1 (j : Int) (ap : Bool) (ds : List (Drawing × Drawing)) :
    ∀ s : LottoState,
      (runLoop j ap s ds).chosen_ball1
        = s.chosen_ball1 ++ ds.map (fun d => d.1.balls.getD 0 0) := by
  induction ds with
  | nil => intro s; simp [runLoop]
  | cons d ds ih =>
      intro s
      rw [runLoop, ih]
      simp [step]

lemma runLoop_ball2 (j : Int) (ap : Bool) (ds : List (Drawing × Drawing)) :
    ∀ s : LottoState,
      (runLoop j ap s ds).chosen_ball2
        = s.chosen_ball2 ++ ds.map (fun d => d.1.balls.getD 1 0) := by
  induction ds with
  | nil => intro s; simp [runLoop]
  | cons d ds ih =>
      intro s
      rw [runLoop, ih]
      simp [step]

lemma runLoop_ball3 (j : Int) (ap : Bool) (ds : List (Drawing × Drawing)) :
    ∀ s : LottoState,
      (runLoop j ap s ds).chosen_ball3
        = s.chosen_ball3 ++ ds.map (fun d => d.1.balls.getD 2 0) := by
  induction ds with
  | nil => intro s; simp [runLoop]
  | cons d ds ih =>
      intro s
      rw [runLoop, ih]
      simp [step]

lemma runLoop_ball4 (j : Int) (ap : Bool) (ds : List (Drawing × Drawing)) :
    ∀ s : LottoState,
      (runLoop j ap s ds).chosen_ball4
        = s.chosen_ball4 ++ ds.map (fun d => d.1.balls.getD 3 0) := by
  induction ds with
  | nil => intro s; simp [runLoop]
  | cons d ds ih =>
      intro s
      rw [runLoop, ih]
      simp [step]

lemma runLoop_ball5 (j : Int) (ap : Bool) (ds : List (Drawing × Drawing)) :
    ∀ s : LottoState,
      (runLoop j ap s ds).chosen_ball5
        = s.chosen_ball5 ++ ds.map (fun d => d.1.balls.getD 4 0) := by
  induction ds with
  | nil => intro s; simp [runLoop]
  | cons d ds ih =>
      intro s
      rw [runLoop, ih]
      simp [step]

lemma runLoop_powerball (j : Int) (ap : Bool) (ds : List (Drawing × Drawing)) :
    ∀ s : LottoState,
      (runLoop j ap s ds).chosen_powerball
        = s.chosen_powerball ++ ds.map (fun d => d.1.powerball.getD 0 0) := by
  induction ds with
  | nil => intro s; simp [runLoop]
  | cons d ds ih =>
      intro s
      rw [runLoop, ih]
      simp [step]

lemma runLoop_powerplay (j : Int) (ap : Bool) (ds : List (Drawing × Drawing)) :
    ∀ s : LottoState,
      (runLoop j ap s ds).chosen_powerplay
        = s.chosen_powerplay ++ ds.map (fun d => d.2.powerplay.getD 0 0) := by
  induction ds with
  | nil => intro s; simp [runLoop]
  | cons d ds ih =>
      intro s
      rw [runLoop, ih]
      simp [step]

/-! Projections of run: all fields except net_profit agree with the loop. -/

lemma run_plays (j : Int) (ap : Bool) (ds : List (Drawing × Drawing)) (s : LottoState) :
    (run j ap ds s).plays = s.plays + ds.length := by
  simp [run, runLoop_plays]

lemma run_spent (j : Int) (ap : Bool) (ds : List (Drawing × Drawing)) (s : LottoState) :
    (run j ap ds s).spent = s.spent ++ List.replicate ds.length (playCost ap) := by
  simp [run, runLoop_spent]

lemma run_winnings (j : Int) (ap : Bool) (ds : List (Drawing × Drawing)) (s : LottoState) :
    (run j ap ds s).winnings = s.winnings ++ ds.map (fun d => playWinnings j ap d.1 d.2) := by
  simp [run, runLoop_winnings]

lemma run_ball1 (j : Int) (ap : Bool) (ds : List (Drawing × Drawing)) (s : LottoState) :
    (run j ap ds s).chosen_ball1 = s.chosen_ball1 ++ ds.map (fun d => d.1.balls.getD 0 0) := by
  simp [run, runLoop_ball1]

lemma run_ball2 (j : Int) (ap : Bool) (ds : List (Drawing × Drawing)) (s : LottoState) :
    (run j ap ds s).chosen_ball2 = s.chosen_ball2 ++ ds.map (fun d => d.1.balls.getD 1 0) := by
  simp [run, runLoop_ball2]

lemma run_ball3 (j : Int) (ap : Bool) (ds : List (Drawing × Drawing)) (s : LottoState) :
    (run j ap ds s).chosen_ball3 = s.chosen_ball3 ++ ds.map (fun d => d.1.balls.getD 2 0) := by
  simp [run, runLoop_ball3]

lemma run_ball4 (j : Int) (ap : Bool) (ds : List (Drawing × Drawing)) (s : LottoState) :
    (run j ap ds s).chosen_ball4 = s.chosen_ball4 ++ ds.map (fun d => d.1.balls.getD 3 0) := by
  simp [run, runLoop_ball4]

lemma run_ball5 (j : Int) (ap : Bool) (ds : List (Drawing × Drawing)) (s : LottoState) :
    (run j ap ds s).chosen_ball5 = s.chosen_ball5 ++ ds.map (fun d => d.1.balls.getD 4 0) := by
  simp [run, runLoop_ball5]

lemma run_powerball (j : Int) (ap : Bool) (ds : List (Drawing × Drawing)) (s : LottoState) :
    (run j ap ds s).chosen_powerball
      = s.chosen_powerball ++ ds.map (fun d => d.1.powerball.getD 0 0) := by
  simp [run, runLoop_powerball]

lemma run_powerplay (j : Int) (ap : Bool) (ds : List (Drawing × Drawing)) (s : LottoState) :
    (run j ap ds s).chosen_powerplay
      = s.chosen_powerplay ++ ds.map (fun d => d.2.powerplay.getD 0 0) := by
  simp [run, runLoop_powerplay]

/-- Multiplying zero winnings leaves them zero whatever the multiplier is. -/
lemma multiply_powerplay_zero (pp : Int) : multiply_powerplay 0 pp = 0 := by
  unfold multiply_powerplay
  split
  · norm_num
  · rfl

/-! Helper lemmas about the zipWith form of calc_profit. -/

lemma zipWith_profit_sum :
    ∀ (a b : List Int), a.length = b.length →
      (List.zipWith (fun sp won => -sp + won) a b).sum = b.sum - a.sum := by
  intro a
  induction a with
  | nil =>
      intro b h
      cases b with
      | nil => simp
      | cons y b => simp at h
  | cons x a ih =>
      intro b h
      cases b with
      | nil => simp at h
      | cons y b =>
          simp at h
          simp [List.zipWith, ih b h]
          ring

lemma zipWith_profit_getD :
    ∀ (a b : List Int) (i : Nat), i < a.length → i < b.length →
      (List.zipWith (fun sp won => -sp + won) a b).getD i 0
        = -(a.getD i 0) + b.getD i 0 := by
  intro a
  induction a with
  | nil => intro b i h _; simp at h
  | cons x a ih =>
      intro b i ha hb
      cases b with
      | nil => simp at hb
      | cons y b =>
          cases i with
          | zero => simp [List.zipWith]
          | succ i =>
              simp at ha hb
              simpa [List.zipWith] using ih b i ha hb

/-- Taking the first k elements of an appended list returns the first list
when that list has length k. -/
lemma take_append_eq {α : Type} (a b : List α) (k : Nat) (h : a.length = k) :
    (a ++ b).take k = a := by
  subst h
  exact List.take_left a b

/-! Concrete drawings used for witnesses and counterexamples. -/

/-- Ticket drawing with balls 1-5, power ball 1, multiplier 2. -/
def ticketDrawA : Drawing := ⟨[1, 2, 3, 4, 5], [1], [2]⟩

/-- Official drawing with balls 6-10, power ball 1, multiplier 2: no ball of
ticketDrawA matches but the power ball matches. -/
def officialDrawA : Drawing := ⟨[6, 7, 8, 9, 10], [1], [2]⟩

/-- Official drawing with balls 6-10, power ball 2, multiplier 2: nothing of
ticketDrawA matches. -/
def officialDrawB : Drawing := ⟨[6, 7, 8, 9, 10], [2], [2]⟩

/-- State after two plays on a fresh engine with jackpot 0 and the powerplay
option off: play 1 wins 4 (power ball only), play 2 wins 0; spend is 2 each. -/
def twoPlayState : LottoState :=
  run 0 false [(ticketDrawA, officialDrawA), (ticketDrawA, officialDrawB)] initState

/-! Claim theorems. -/

/-- C2: in _draw, a jackpot of at least 150,000,000 selects the multiplier
pool (2, 3, 4, 5, 10) and a smaller jackpot selects (2, 3, 4, 5), so below
the threshold the value 10 is never drawn. -/
theorem draw_multiplier_pool (j : Int) :
    (150000000 ≤ j → drawPowerplayPool j = [2, 3, 4, 5, 10]) ∧
    (j < 150000000 →
      drawPowerplayPool j = [2, 3, 4, 5] ∧ (10 : Int) ∉ drawPowerplayPool j) := by
  constructor
  · intro h
    simp [drawPowerplayPool, h, powerplays]
  · intro h
    have h2 : ¬ (j ≥ 150000000) := not_le.mpr h
    refine ⟨by simp [drawPowerplayPool, h2], ?_⟩
    simp [drawPowerplayPool, h2]

/-- Witness for C2 at the concrete jackpots 200,000,000 and 100,000,000. -/
theorem draw_multiplier_pool_witness :
    drawPowerplayPool 200000000 = [2, 3, 4, 5, 10] ∧
    (drawPowerplayPool 100000000 = [2, 3, 4, 5] ∧
      (10 : Int) ∉ drawPowerplayPool 100000000) :=
  ⟨(draw_multiplier_pool 200000000).1 (by decide),
   (draw_multiplier_pool 100000000).2 (by decide)⟩

/-- C3: evaluation of the multiplier pool at the failing inputs. The code
includes the 10x multiplier exactly when the jackpot is at least 150,000,000,
the opposite of the claim (and of the code's own docstring and inline
comment, simulator.py lines 174-175 and 186). -/
theorem draw_includes_ten_at_high_jackpot :
    (10 : Int) ∈ drawPowerplayPool 150000000 ∧
    (10 : Int) ∈ drawPowerplayPool 250000000 ∧
    (10 : Int) ∉ drawPowerplayPool 149999999 := by
  decide

/-- C4: _multiply_powerplay returns the winnings unchanged for a
non-positive multiplier, multiplies winnings below 1,000,000 by the
multiplier, and returns exactly 2,000,000 for winnings of 1,000,000 and any
multiplier from the pool. -/
theorem multiply_powerplay_spec :
    (∀ w p : Int, p ≤ 0 → multiply_powerplay w p = w) ∧
    (∀ w p : Int, w < 1000000 → 0 < p → multiply_powerplay w p = w * p) ∧
    (∀ p : Int, p ∈ powerplays → multiply_powerplay 1000000 p = 2000000) ∧
    multiply_powerplay 1000000 0 = 1000000 ∧
    multiply_powerplay 100 0 = 100 ∧
    multiply_powerplay 100 3 = 300 := by
  refine ⟨?_, ?_, ?_, by decide, by decide, by decide⟩
  · intro w p hp
    unfold multiply_powerplay
    rw [if_neg (not_lt.mpr hp)]
  · intro w p hw hp
    unfold multiply_powerplay
    rw [if_pos hp, if_pos hw]
  · intro p hp
    simp only [powerplays, List.mem_cons, List.not_mem_nil, or_false] at hp
    rcases hp with rfl | rfl | rfl | rfl | rfl <;> decide

/-- Witness for C4 at concrete winnings and multipliers. -/
theorem multiply_powerplay_spec_witness :
    multiply_powerplay 7 (-1) = 7 ∧
    multiply_powerplay 100 3 = 300 ∧
    multiply_powerplay 1000000 10 = 2000000 :=
  ⟨multiply_powerplay_spec.1 7 (-1) (by decide),
   multiply_powerplay_spec.2.1 100 3 (by decide) (by decide),
   multiply_powerplay_spec.2.2.1 10 (by decide)⟩

/-- C5: a play matching 5 balls and the power ball is paid the jackpot
verbatim, for every jackpot, powerplay setting and multiplier value; the
multiplier is never applied to the jackpot tier. -/
theorem jackpot_paid_verbatim (jackpot : Int) (ap : Bool) (pp : Int) :
    resolveWinnings jackpot ap 5 true pp = jackpot := by
  have h : lookupPrize 5 true = Prize.jackpotPrize := by decide
  simp [resolveWinnings, h]

/-- C6: the prize table has exactly 9 entries; the three absent combinations
(0, false), (1, false) and (2, false) are not in the table and resolve to a
payout of 0 for every jackpot, powerplay setting and multiplier value. -/
theorem missing_prize_combos_pay_zero :
    prizes.length = 9 ∧
    prizes.lookup ((0 : Nat), false) = none ∧
    prizes.lookup ((1 : Nat), false) = none ∧
    prizes.lookup ((2 : Nat), false) = none ∧
    (∀ (j pp : Int) (ap : Bool),
      resolveWinnings j ap 0 false pp = 0 ∧
      resolveWinnings j ap 1 false pp = 0 ∧
      resolveWinnings j ap 2 false pp = 0) := by
  refine ⟨by decide, by decide, by decide, by decide, ?_⟩
  intro j pp ap
  have h0 : lookupPrize 0 false = Prize.fixed 0 := by decide
  have h1 : lookupPrize 1 false = Prize.fixed 0 := by decide
  have h2 : lookupPrize 2 false = Prize.fixed 0 := by decide
  refine ⟨?_, ?_, ?_⟩ <;>
    · simp only [resolveWinnings, h0, h1, h2]
      cases ap <;> simp [multiply_powerplay_zero]

/-- C10: _multiply_powerplay returns the fixed cap 2,000,000 for every
winnings value of at least 1,000,000 whenever the multiplier is positive,
so an amount above 2,000,000 would be reduced to 2,000,000. -/
theorem multiply_powerplay_caps_large (w p : Int)
    (hw : 1000000 ≤ w) (hp : 0 < p) :
    multiply_powerplay w p = 2000000 := by
  unfold multiply_powerplay
  rw [if_pos hp, if_neg (not_lt.mpr hw)]

/-- Witness for C10: winnings of 3,000,000 with multiplier 2 are reduced to
the cap 2,000,000. -/
theorem multiply_powerplay_caps_large_witness :
    (1000000 : Int) ≤ 3000000 ∧ (0 : Int) < 2 ∧
    multiply_powerplay 3000000 2 = 2000000 ∧ (2000000 : Int) < 3000000 :=
  ⟨by decide, by decide,
   multiply_powerplay_caps_large 3000000 2 (by decide) (by decide), by decide⟩

/-- C1 counterexample: on the two-play state (winnings 4 then 0, spend 2
each) the last element of _calc_profit is -2, while total winnings minus
total spend is 0; the series is therefore not the running prefix sum the
claim describes. -/
theorem calc_profit_not_prefix_sum :
    twoPlayState.plays = 2 ∧
    twoPlayState.spent = [2, 2] ∧
    twoPlayState.winnings = [4, 0] ∧
    (calc_profit twoPlayState).length = 2 ∧
    (calc_profit twoPlayState).getD 1 0
      ≠ twoPlayState.winnings.sum - twoPlayState.spent.sum := by
  decide

/-- C1 amended: _calc_profit returns the elementwise per-play profit series
(element i is winnings i minus spend i), of length equal to the play count;
its SUM, not its last element, equals total winnings minus total spend, and
run records that sum as net_profit. The cumulative profit of the claim is
the prefix sum of this series, which the code never forms. -/
theorem calc_profit_per_play (s : LottoState)
    (h : s.spent.length = s.winnings.length) :
    (calc_profit s).length = s.winnings.length ∧
    (∀ i, i < s.winnings.length →
      (calc_profit s).getD i 0 = -(s.spent.getD i 0) + s.winnings.getD i 0) ∧
    (calc_profit s).sum = s.winnings.sum - s.spent.sum ∧
    (∀ (j : Int) (ap : Bool) (ds : List (Drawing × Drawing)),
      (run j ap ds s).net_profit
        = (run j ap ds s).winnings.sum - (run j ap ds s).spent.sum) := by
  refine ⟨?_, ?_, ?_, ?_⟩
  · simp [calc_profit, h]
  · intro i hi
    exact zipWith_profit_getD s.spent s.winnings i (h ▸ hi) hi
  · exact zipWith_profit_sum s.spent s.winnings h
  · intro j ap ds
    have hlen : (runLoop j ap s ds).spent.length = (runLoop j ap s ds).winnings.length := by
      simp [runLoop_spent, runLoop_winnings, h]
    simp only [run]
    exact zipWith_profit_sum _ _ hlen

/-- Witness for the amended C1 at the concrete two-play state. -/
theorem calc_profit_per_play_witness :
    twoPlayState.spent.length = twoPlayState.winnings.length ∧
    ((calc_profit twoPlayState).length = twoPlayState.winnings.length ∧
     (∀ i, i < twoPlayState.winnings.length →
       (calc_profit twoPlayState).getD i 0
         = -(twoPlayState.spent.getD i 0) + twoPlayState.winnings.getD i 0) ∧
     (calc_profit twoPlayState).sum
        = twoPlayState.winnings.sum - twoPlayState.spent.sum ∧
     (∀ (j : Int) (ap : Bool) (ds : List (Drawing × Drawing)),
       (run j ap ds twoPlayState).net_profit
         = (run j ap ds twoPlayState).winnings.sum
             - (run j ap ds twoPlayState).spent.sum)) :=
  ⟨by decide, calc_profit_per_play twoPlayState (by decide)⟩

/-- C7: for drawings with 5 distinct main balls, the matched-ball count of
run equals the cardinality of the set intersection of the two ball sets and
is at most 5, and the power-ball comparison of two 1-element lists is true
exactly when the power balls are equal. -/
theorem scoreMatch_spec (t c : List Nat) (tp cp : Nat)
    (htn : t.Nodup) (htl : t.length = 5) (_hcn : c.Nodup) (_hcl : c.length = 5) :
    matchedBalls t c = (t.toFinset ∩ c.toFinset).card ∧
    matchedBalls t c ≤ 5 ∧
    (matchedPowerball [tp] [cp] = true ↔ tp = cp) := by
  refine ⟨?_, ?_, ?_⟩
  · have hfin : (t.filter (fun i => decide (i ∈ c))).toFinset
        = t.toFinset ∩ c.toFinset := by
      ext a
      simp [List.mem_filter]
    have hnd : (t.filter (fun i => decide (i ∈ c))).Nodup := htn.filter _
    unfold matchedBalls
    rw [← List.toFinset_card_of_nodup hnd, hfin]
  · unfold matchedBalls
    calc (t.filter (fun i => decide (i ∈ c))).length
        ≤ t.length := List.length_filter_le _ _
      _ = 5 := htl
  · simp [matchedPowerball]

/-- Witness for C7 at two concrete drawings sharing the balls 3, 4, 5 and
the power ball 9. -/
theorem scoreMatch_spec_witness :
    ([1, 2, 3, 4, 5] : List Nat).Nodup ∧
    ([3, 4, 5, 6, 7] : List Nat).Nodup ∧
    (matchedBalls [1, 2, 3, 4, 5] [3, 4, 5, 6, 7]
        = (([1, 2, 3, 4, 5] : List Nat).toFinset
            ∩ ([3, 4, 5, 6, 7] : List Nat).toFinset).card ∧
      matchedBalls [1, 2, 3, 4, 5] [3, 4, 5, 6, 7] ≤ 5 ∧
      (matchedPowerball [9] [9] = true ↔ 9 = 9)) :=
  ⟨by decide, by decide,
   scoreMatch_spec [1, 2, 3, 4, 5] [3, 4, 5, 6, 7] 9 9
     (by decide) (by decide) (by decide) (by decide)⟩

/-- C8: on a fresh engine, a run with n plays produces exactly n records,
a spend series constantly 2 with the powerplay option off (constantly 3
with it on), and the gap-free 1-based ticket numbers 1..n. -/
theorem run_fresh_engine (j : Int) (ds : List (Drawing × Drawing)) (n : Nat)
    (hn : ds.length = n) (_hpos : 0 < n) :
    (run j false ds initState).plays = n ∧
    (run j false ds initState).spent = List.replicate n 2 ∧
    ticketNumbers (run j false ds initState) = List.range' 1 n ∧
    (run j true ds initState).spent = List.replicate n 3 := by
  refine ⟨?_, ?_, ?_, ?_⟩
  · rw [run_plays]; simp [initState, hn]
  · rw [run_spent]; simp [initState, hn, playCost]
  · unfold ticketNumbers
    rw [run_plays]; simp [initState, hn]
  · rw [run_spent]; simp [initState, hn, playCost]

/-- Witness for C8 on a concrete two-play run. -/
theorem run_fresh_engine_witness :
    ([(ticketDrawA, officialDrawA), (ticketDrawA, officialDrawB)]
        : List (Drawing × Drawing)).length = 2 ∧
    0 < 2 ∧
    ((run 0 false [(ticketDrawA, officialDrawA), (ticketDrawA, officialDrawB)]
        initState).plays = 2 ∧
      (run 0 false [(ticketDrawA, officialDrawA), (ticketDrawA, officialDrawB)]
        initState).spent = List.replicate 2 2 ∧
      ticketNumbers (run 0 false
        [(ticketDrawA, officialDrawA), (ticketDrawA, officialDrawB)]
        initState) = List.range' 1 2 ∧
      (run 0 true [(ticketDrawA, officialDrawA), (ticketDrawA, officialDrawB)]
        initState).spent = List.replicate 2 3) :=
  ⟨by decide, by decide,
   run_fresh_engine 0 [(ticketDrawA, officialDrawA), (ticketDrawA, officialDrawB)]
     2 (by decide) (by decide)⟩

/-- C9: run never resets prior state: from any well-formed state with k
recorded plays, running n further plays leaves the first k entries of every
recorded series unchanged, extends each series to length k + n, and sets
the play counter to k + n. -/
theorem run_appends_without_reset (j : Int) (ap : Bool)
    (ds : List (Drawing × Drawing)) (s : LottoState) (hwf : WellFormed s) :
    (run j ap ds s).plays = s.plays + ds.length ∧
    ((run j ap ds s).spent.take s.plays = s.spent ∧
      (run j ap ds s).spent.length = s.plays + ds.length) ∧
    ((run j ap ds s).winnings.take s.plays = s.winnings ∧
      (run j ap ds s).winnings.length = s.plays + ds.length) ∧
    ((run j ap ds s).chosen_ball1.take s.plays = s.chosen_ball1 ∧
      (run j ap ds s).chosen_ball1.length = s.plays + ds.length) ∧
    ((run j ap ds s).chosen_ball2.take s.plays = s.chosen_ball2 ∧
      (run j ap ds s).chosen_ball2.length = s.plays + ds.length) ∧
    ((run j ap ds s).chosen_ball3.take s.plays = s.chosen_ball3 ∧
      (run j ap ds s).chosen_ball3.length = s.plays + ds.length) ∧
    ((run j ap ds s).chosen_ball4.take s.plays = s.chosen_ball4 ∧
      (run j ap ds s).chosen_ball4.length = s.plays + ds.length) ∧
    ((run j ap ds s).chosen_ball5.take s.plays = s.chosen_ball5 ∧
      (run j ap ds s).chosen_ball5.length = s.plays + ds.length) ∧
    ((run j ap ds s).chosen_powerball.take s.plays = s.chosen_powerball ∧
      (run j ap ds s).chosen_powerball.length = s.plays + ds.length) ∧
    ((run j ap ds s).chosen_powerplay.take s.plays = s.chosen_powerplay ∧
      (run j ap ds s).chosen_powerplay.length = s.plays + ds.length) := by
  obtain ⟨h1, h2, h3, h4, h5, h6, h7, h8, h9⟩ := hwf
  refine ⟨run_plays j ap ds s, ⟨?_, ?_⟩, ⟨?_, ?_⟩, ⟨?_, ?_⟩, ⟨?_, ?_⟩,
    ⟨?_, ?_⟩, ⟨?_, ?_⟩, ⟨?_, ?_⟩, ⟨?_, ?_⟩, ⟨?_, ?_⟩⟩
  · rw [run_spent]; exact take_append_eq _ _ _ h1
  · rw [run_spent]; simp [h1]
  · rw [run_winnings]; exact take_append_eq _ _ _ h2
  · rw [run_winnings]; simp [h2]
  · rw [run_ball1]; exact take_append_eq _ _ _ h3
  · rw [run_ball1]; simp [h3]
  · rw [run_ball2]; exact take_append_eq _ _ _ h4
  · rw [run_ball2]; simp [h4]
  · rw [run_ball3]; exact take_append_eq _ _ _ h5
  · rw [run_ball3]; simp [h5]
  · rw [run_ball4]; exact take_append_eq _ _ _ h6
  · rw [run_ball4]; simp [h6]
  · rw [run_ball5]; exact take_append_eq _ _ _ h7
  · rw [run_ball5]; simp [h7]
  · rw [run_powerball]; exact take_append_eq _ _ _ h8
  · rw [run_powerball]; simp [h8]
  · rw [run_powerplay]; exact take_append_eq _ _ _ h9
  · rw [run_powerplay]; simp [h9]

/-- One further pair of drawings, used to extend an existing state. -/
def extraDraws : List (Drawing × Drawing) := [(ticketDrawA, officialDrawB)]

/-- Witness for C9: one further play appended to the concrete two-play
state keeps its first two entries in every series. -/
theorem run_appends_without_reset_witness :
    WellFormed twoPlayState ∧
    ((run 0 false extraDraws twoPlayState).plays
        = twoPlayState.plays + extraDraws.length ∧
     ((run 0 false extraDraws twoPlayState).spent.take twoPlayState.plays
          = twoPlayState.spent ∧
       (run 0 false extraDraws twoPlayState).spent.length
          = twoPlayState.plays + extraDraws.length) ∧
     ((run 0 false extraDraws twoPlayState).winnings.take twoPlayState.plays
          = twoPlayState.winnings ∧
       (run 0 false extraDraws twoPlayState).winnings.length
          = twoPlayState.plays + extraDraws.length) ∧
     ((run 0 false extraDraws twoPlayState).chosen_ball1.take twoPlayState.plays
          = twoPlayState.chosen_ball1 ∧
       (run 0 false extraDraws twoPlayState).chosen_ball1.length
          = twoPlayState.plays + extraDraws.length) ∧
     ((run 0 false extraDraws twoPlayState).chosen_ball2.take twoPlayState.plays
          = twoPlayState.chosen_ball2 ∧
       (run 0 false extraDraws twoPlayState).chosen_ball2.length
          = twoPlayState.plays + extraDraws.length) ∧
     ((run 0 false extraDraws twoPlayState).chosen_ball3.take twoPlayState.plays
          = twoPlayState.chosen_ball3 ∧
       (run 0 false extraDraws twoPlayState).chosen_ball3.length
          = twoPlayState.plays + extraDraws.length) ∧
     ((run 0 false extraDraws twoPlayState).chosen_ball4.take twoPlayState.plays
          = twoPlayState.chosen_ball4 ∧
       (run 0 false extraDraws twoPlayState).chosen_ball4.length
          = twoPlayState.plays + extraDraws.length) ∧
     ((run 0 false extraDraws twoPlayState).chosen_ball5.take twoPlayState.plays
          = twoPlayState.chosen_ball5 ∧
       (run 0 false extraDraws twoPlayState).chosen_ball5.length
          = twoPlayState.plays + extraDraws.length) ∧
     ((run 0 false extraDraws twoPlayState).chosen_powerball.take twoPlayState.plays
          = twoPlayState.chosen_powerball ∧
       (run 0 false extraDraws twoPlayState).chosen_powerball.length
          = twoPlayState.plays + extraDraws.length) ∧
     ((run 0 false extraDraws twoPlayState).chosen_powerplay.take twoPlayState.plays
          = twoPlayState.chosen_powerplay ∧
       (run 0 false extraDraws twoPlayState).chosen_powerplay.length
          = twoPlayState.plays + extraDraws.length)) :=
  ⟨by decide, run_appends_without_reset 0 false extraDraws twoPlayState (by decide)⟩

end Lotto
